import Mathlib

/- Verification development for the frontend-template repository.

   The runtime core is embedded shallowly:
   - the Home Page component (src/app/page.tsx),
   - the Root Layout component and the exported document metadata
     (src/app/layout.tsx, lines 52-70 of the flattened config file),
   - the shared type contracts PageProps and LayoutProps (the common
     types module).

   JSX trees are embedded as the inductive type ReactNode below; a JSX
   element with a tag, attributes and children becomes the element
   constructor, and literal text becomes the text constructor. -/

/-- A renderable React value: a text node, or an element carrying a tag
name, an attribute list (name-value pairs) and a list of child nodes. -/
inductive ReactNode : Type where
  | text : String → ReactNode
  | element : String → List (String × String) → List ReactNode → ReactNode

/-- A deferred value, embedding a TypeScript Promise whose resolved value
has type α.  The resolve field is the value the framework delivers once
the promise settles. -/
structure Promise (α : Type) : Type where
  resolve : α

/-- A TypeScript Record with string keys and values of type α, embedded as
a finite list of key-value pairs. -/
abbrev TSRecord (α : Type) : Type := List (String × α)

/-- The value type of a query parameter entry in the source: a single
string, an ordered sequence of strings, or undefined (embedded as none). -/
abbrev SearchParamValue : Type := Option (String ⊕ List String)

/-- PageProps from the shared types module: route params and query
searchParams, each delivered as a promise. -/
structure PageProps : Type where
  params : Promise (TSRecord String)
  searchParams : Promise (TSRecord SearchParamValue)

/-- LayoutProps from the shared types module: the nested renderable
children plus the promised route params. -/
structure LayoutProps : Type where
  children : ReactNode
  params : Promise (TSRecord String)

/-- HomePage from src/app/page.tsx: a zero-argument component returning a
main container with one heading and one paragraph.  The Unit argument
embeds the empty TypeScript parameter list of the source function. -/
def HomePage (_ : Unit) : ReactNode :=
  .element "main"
    [("className", "flex min-h-screen flex-col items-center justify-center p-24")]
    [ .element "h1" [("className", "text-4xl font-bold")]
        [.text "Frontend Template"],
      .element "p" [("className", "mt-4 text-lg text-gray-600")]
        [.text "Next.js + React + Tailwind CSS"] ]

/-- The shape of the exported metadata object of the root layout: the two
fields the source declares. -/
structure Metadata : Type where
  title : String
  description : String

/-- The metadata constant exported by the root layout module. -/
def metadata : Metadata :=
  { title := "Frontend Template",
    description := "Next.js frontend template with Tailwind CSS" }

/-- RootLayout from the root layout module: wraps the given children in a
body element with the antialiased class, inside an html element with the
lang attribute set to en.  The source destructures only children from its
props object. -/
def RootLayout (children : ReactNode) : ReactNode :=
  .element "html" [("lang", "en")]
    [.element "body" [("className", "antialiased")] [children]]

/-- Invoking the layout component on a full LayoutProps value, the way the
framework calls it: the destructuring in the source binds children only,
so the params field is never consulted. -/
def renderRootLayout (p : LayoutProps) : ReactNode :=
  RootLayout p.children

/-- The tag of a node, when it is an element. -/
def tagOf : ReactNode → Option String
  | .text _ => none
  | .element t _ _ => some t

/-- The attribute list of a node. -/
def attrsOf : ReactNode → List (String × String)
  | .text _ => []
  | .element _ al _ => al

/-- Look up the value of one attribute by name. -/
def attrOf (n : ReactNode) (k : String) : Option String :=
  ((attrsOf n).find? (fun kv => kv.1 == k)).map (fun kv => kv.2)

/-- The direct children of a node. -/
def childrenOf : ReactNode → List ReactNode
  | .text _ => []
  | .element _ _ cs => cs

/-- Whether a node is an element node. -/
def isElement : ReactNode → Bool
  | .text _ => false
  | .element _ _ _ => true

/-- Split a character list into space-separated tokens; cur accumulates
the characters of the current token in reverse. -/
def tokensAux (cur : List Char) : List Char → List String
  | [] => [String.mk cur.reverse]
  | c :: cs =>
      if c == ' ' then String.mk cur.reverse :: tokensAux [] cs
      else tokensAux (c :: cur) cs

/-- The space-separated tokens of a string. -/
def classTokens (s : String) : List String :=
  tokensAux [] s.data

/-- Whether the className attribute of a node lists the given utility
class among its space-separated entries. -/
def hasClass (n : ReactNode) (cls : String) : Bool :=
  match attrOf n "className" with
  | some s => (classTokens s).contains cls
  | none => false

mutual

/-- The concatenated literal text of a node and its descendants. -/
def textOf : ReactNode → String
  | .text s => s
  | .element _ _ cs => textOfList cs

/-- The concatenated literal text of a list of nodes. -/
def textOfList : List ReactNode → String
  | [] => ""
  | c :: cs => textOf c ++ textOfList cs

end

/-- Whether the pattern occurs at the head of the character list. -/
def matchHere : List Char → List Char → Bool
  | [], _ => true
  | _ :: _, [] => false
  | p :: ps, c :: cs => p == c && matchHere ps cs

/-- Whether the pattern occurs contiguously anywhere in the character
list. -/
def hasSeq (pat : List Char) : List Char → Bool
  | [] => matchHere pat []
  | c :: cs => matchHere pat (c :: cs) || hasSeq pat cs

/-- Whether the string s contains pat as a contiguous substring. -/
def strContains (s pat : String) : Bool :=
  hasSeq pat.data s.data

mutual

/-- How many nodes in the tree (the node itself included) satisfy the
predicate. -/
def countNode (p : ReactNode → Bool) : ReactNode → Nat
  | .text s => if p (.text s) then 1 else 0
  | .element t al cs =>
      (if p (.element t al cs) then 1 else 0) + countList p cs

/-- Sum of countNode over a list of nodes. -/
def countList (p : ReactNode → Bool) : List ReactNode → Nat
  | [] => 0
  | c :: cs => countNode p c + countList p cs

end

/-- The heading tag names of HTML. -/
def headingTags : List String := ["h1", "h2", "h3", "h4", "h5", "h6"]

/-- Whether a node is a heading element. -/
def isHeading (n : ReactNode) : Bool :=
  match tagOf n with
  | some t => headingTags.contains t
  | none => false

/-- Whether a node is a heading element whose literal text equals t. -/
def isHeadingTitled (t : String) (n : ReactNode) : Bool :=
  isHeading n && textOf n == t

/-- Whether a node is a paragraph element whose literal text contains the
given substring. -/
def isParagraphContaining (sub : String) (n : ReactNode) : Bool :=
  tagOf n == some "p" && strContains (textOf n) sub

/-- The body element of a document: the first child of an html root. -/
def docBody : ReactNode → Option ReactNode
  | .element "html" _ (b :: _) => some b
  | _ => none

/-- Spec-side counterpart of PageProps, following the wording of section 3
of the specification: routeParams resolves to a mapping from string to
string, queryParams resolves to a mapping from string to a single string,
an ordered sequence of strings, or absent; both delivered asynchronously.
Declared only to be compared with the PageProps type taken from the
source. -/
structure PageInputs : Type where
  routeParams : Promise (TSRecord String)
  queryParams : Promise (TSRecord SearchParamValue)

/-- Spec-side counterpart of LayoutInputs, following the wording of
section 3 of the specification: an opaque renderable children value plus
the promised routeParams mapping.  Declared only to be compared with the
LayoutProps type taken from the source. -/
structure LayoutInputs : Type where
  children : ReactNode
  routeParams : Promise (TSRecord String)

/-- Field-preserving map from the source type PageProps to the spec type
PageInputs. -/
def pagePropsToInputs (p : PageProps) : PageInputs :=
  ⟨p.params, p.searchParams⟩

/-- Field-preserving map from the spec type PageInputs to the source type
PageProps. -/
def pageInputsToProps (i : PageInputs) : PageProps :=
  ⟨i.routeParams, i.queryParams⟩

/-- Field-preserving map from the source type LayoutProps to the spec type
LayoutInputs. -/
def layoutPropsToInputs (l : LayoutProps) : LayoutInputs :=
  ⟨l.children, l.params⟩

/-- Field-preserving map from the spec type LayoutInputs to the source
type LayoutProps. -/
def layoutInputsToProps (i : LayoutInputs) : LayoutProps :=
  ⟨i.children, i.routeParams⟩

/-- C1: the Home Page render function, called with no arguments, returns a
main container styled full-viewport-height, flex-column, centered, with
fixed padding, containing exactly one heading element whose literal text
is Frontend Template and exactly one paragraph element whose text contains
the literal substring Next.js + React + Tailwind CSS. -/
theorem C1_home_page_render :
    tagOf (HomePage ()) = some "main" ∧
    hasClass (HomePage ()) "min-h-screen" = true ∧
    hasClass (HomePage ()) "flex" = true ∧
    hasClass (HomePage ()) "flex-col" = true ∧
    hasClass (HomePage ()) "items-center" = true ∧
    hasClass (HomePage ()) "justify-center" = true ∧
    hasClass (HomePage ()) "p-24" = true ∧
    countNode (isHeadingTitled "Frontend Template") (HomePage ()) = 1 ∧
    countNode (isParagraphContaining "Next.js + React + Tailwind CSS")
      (HomePage ()) = 1 :=
  ⟨rfl, rfl, rfl, rfl, rfl, rfl, rfl, rfl, rfl⟩

/-- C2: for every renderable children value, the Root Layout output is
exactly the fixed html and body shell with the children value placed in
the body unchanged: layout composition is the identity on children plus a
fixed wrapper. -/
theorem C2_layout_identity_on_children (c : ReactNode) :
    RootLayout c =
      .element "html" [("lang", "en")]
        [.element "body" [("className", "antialiased")] [c]] := rfl

/-- C3: the declared document metadata consists of exactly the two fields
of the Metadata shape, the title equal to the literal Frontend Template
and the description equal to the literal Next.js frontend template with
Tailwind CSS; the constant does not depend on any route or request
parameter. -/
theorem C3_metadata_stability :
    metadata = { title := "Frontend Template",
                 description := "Next.js frontend template with Tailwind CSS" } := rfl

/-- C4: the shared type contracts match section 3 of the specification:
the source types PageProps and LayoutProps are in field-preserving
bijection with the spec-side shapes PageInputs and LayoutInputs. -/
theorem C4_type_contract_shapes :
    (∀ p : PageProps, pageInputsToProps (pagePropsToInputs p) = p) ∧
    (∀ i : PageInputs, pagePropsToInputs (pageInputsToProps i) = i) ∧
    (∀ l : LayoutProps, layoutInputsToProps (layoutPropsToInputs l) = l) ∧
    (∀ i : LayoutInputs, layoutPropsToInputs (layoutInputsToProps i) = i) :=
  ⟨fun _ => rfl, fun _ => rfl, fun _ => rfl, fun _ => rfl⟩

/-- C5: the Root Layout accepts a full LayoutProps value but consumes only
its children field: two LayoutProps values with equal children and
arbitrary params render identically. -/
theorem C5_layout_ignores_route_params (p q : LayoutProps)
    (h : p.children = q.children) :
    renderRootLayout p = renderRootLayout q := by
  unfold renderRootLayout
  rw [h]

/-- Witness for C5 at concrete inputs whose params differ. -/
theorem C5_layout_ignores_route_params_witness :
    (LayoutProps.mk (.text "v") ⟨[("slug", "a")]⟩).children =
      (LayoutProps.mk (.text "v") ⟨[]⟩).children ∧
    renderRootLayout (LayoutProps.mk (.text "v") ⟨[("slug", "a")]⟩) =
      renderRootLayout (LayoutProps.mk (.text "v") ⟨[]⟩) :=
  ⟨rfl, C5_layout_ignores_route_params _ _ rfl⟩

/-- C6: the Home Page and the Root Layout are total functions performing
no fallible operation: on every input each invocation succeeds and yields
an element node. -/
theorem C6_total_components :
    (∀ u : Unit, isElement (HomePage u) = true) ∧
    (∀ c : ReactNode, isElement (RootLayout c) = true) :=
  ⟨fun _ => rfl, fun _ => rfl⟩

/-- C7: any two invocations of the Home Page function with no arguments
yield identical renderable output. -/
theorem C7_home_page_deterministic (u v : Unit) :
    HomePage u = HomePage v := rfl

/-- C8: for every children value, the document produced by the Root Layout
has an html root declaring English, a body carrying the antialiased style
hint, and the children rendered unchanged inside that body. -/
theorem C8_document_shell (c : ReactNode) :
    tagOf (RootLayout c) = some "html" ∧
    attrOf (RootLayout c) "lang" = some "en" ∧
    ∃ b, docBody (RootLayout c) = some b ∧
      tagOf b = some "body" ∧
      hasClass b "antialiased" = true ∧
      childrenOf b = [c] :=
  ⟨rfl, rfl, .element "body" [("className", "antialiased")] [c],
   rfl, rfl, rfl, rfl⟩

/-- C9: for every children value, the body element of the Root Layout
output contains the children value exactly once as its sole content. -/
theorem C9_body_sole_content (c : ReactNode) :
    ∃ b, docBody (RootLayout c) = some b ∧
      childrenOf b = [c] ∧ (childrenOf b).length = 1 :=
  ⟨.element "body" [("className", "antialiased")] [c], rfl, rfl, rfl⟩

/-- C10: the main container of the Home Page output has exactly two
children, a heading element strictly before a paragraph element. -/
theorem C10_heading_before_paragraph :
    ∃ a b, childrenOf (HomePage ()) = [a, b] ∧
      isHeading a = true ∧ tagOf b = some "p" :=
  ⟨.element "h1" [("className", "text-4xl font-bold")]
      [.text "Frontend Template"],
   .element "p" [("className", "mt-4 text-lg text-gray-600")]
      [.text "Next.js + React + Tailwind CSS"],
   rfl, rfl, rfl⟩
